import Mathlib

/-!
Verification of the `demucs_wrapper.py` command forwarder.

The script imports torchaudio, calls
`torchaudio.set_audio_backend("soundfile")`, then (importing sys and
subprocess) builds `cmd = ["demucs"] + sys.argv[1:]` and invokes
`subprocess.run(cmd, check=True)`.

We embed it shallowly: the environment (whether the configuration call
succeeds, and how the operating system answers a spawn request) is a
`World`; `runScript` is the script's control flow over that world,
recording the observable events, the Python exception (if any) that
escapes, and the interpreter's exit status.  CPython exits with status 1
when an exception propagates out of the top level; `subprocess.run` with
`check=True` raises `CalledProcessError` on a non-zero child exit status
and `FileNotFoundError` when the executable cannot be started.
-/

namespace DemucsWrapper

/-- Outcome of a spawn request: either the executable could not be
located/started, or a child process ran and exited with the given status. -/
inductive SpawnResult where
  | notFound : SpawnResult
  | exited : Nat → SpawnResult
deriving DecidableEq, Repr

/-- The Python exceptions that can escape the script:
`configError` models an exception raised by `torchaudio.set_audio_backend`;
`fileNotFoundError` is raised by `subprocess.run` when the executable
cannot be started; `calledProcessError n cmd` is raised by `check=True`
when the child exits with non-zero status `n`. -/
inductive PyExc where
  | configError : PyExc
  | fileNotFoundError : PyExc
  | calledProcessError : Nat → List String → PyExc
deriving DecidableEq, Repr

/-- Observable effects of a run: the successful backend-configuration call,
and the creation of a child process with a given argument vector. -/
inductive Event where
  | configCall : String → Event
  | spawn : List String → Event
deriving DecidableEq, Repr

/-- The environment the script runs in: whether the backend-configuration
call succeeds, and what a spawn request with a given argument vector does. -/
structure World where
  configOk : Bool
  spawn : List String → SpawnResult

/-- The backend name passed to `torchaudio.set_audio_backend`. -/
def audioBackend : String := "soundfile"

/-- `cmd = ["demucs"] + sys.argv[1:]` — the child argument vector. -/
def buildCmd (args : List String) : List String := ["demucs"] ++ args

/-- Result of one run of the script: the ordered observable events, the
exception escaping the top level (if any), and the interpreter exit code. -/
structure Outcome where
  events : List Event
  exc : Option PyExc
  exitCode : Nat
deriving DecidableEq, Repr

/-- The whole script, as a function of the environment and of
`sys.argv[1:]`.  A failed configuration call aborts before `cmd` is built;
otherwise `subprocess.run(cmd, check=True)` is issued: on a failed start
`FileNotFoundError` escapes; on child exit 0 the script falls off the end
with exit code 0; on a non-zero child exit `CalledProcessError` escapes.
An escaping exception makes the interpreter exit with status 1. -/
def runScript (w : World) (args : List String) : Outcome :=
  if w.configOk then
    match w.spawn (buildCmd args) with
    | SpawnResult.notFound =>
        { events := [Event.configCall audioBackend],
          exc := some PyExc.fileNotFoundError, exitCode := 1 }
    | SpawnResult.exited n =>
        if n = 0 then
          { events := [Event.configCall audioBackend,
                       Event.spawn (buildCmd args)],
            exc := none, exitCode := 0 }
        else
          { events := [Event.configCall audioBackend,
                       Event.spawn (buildCmd args)],
            exc := some (PyExc.calledProcessError n (buildCmd args)),
            exitCode := 1 }
  else
    { events := [], exc := some PyExc.configError, exitCode := 1 }

/-- Whether an event is the creation of a child process. -/
def isSpawnEvent : Event → Bool
  | Event.spawn _ => true
  | _ => false

/-- Number of child processes created during a run. -/
def spawnCount (es : List Event) : Nat := es.countP isSpawnEvent

/-- The spec's error taxonomy (refinement target). -/
inductive SpecErrorKind where
  | processFailure : SpecErrorKind
  | other : SpecErrorKind
deriving DecidableEq, Repr

/-- Refinement definition written from the spec's words, to be compared
with the exceptions the code raises: "ProcessFailure — raised when the
external tool cannot be started or exits with a non-zero status."
An exception from the configuration call fits neither condition. -/
def specErrorKind : PyExc → SpecErrorKind
  | PyExc.fileNotFoundError => SpecErrorKind.processFailure
  | PyExc.calledProcessError _ _ => SpecErrorKind.processFailure
  | PyExc.configError => SpecErrorKind.other

/-- A world whose configuration call succeeds and whose every spawn
request yields the fixed result `r`. -/
def wOk (r : SpawnResult) : World := { configOk := true, spawn := fun _ => r }

/-- A world whose configuration call raises. -/
def wBadConfig : World := { configOk := false, spawn := fun _ => SpawnResult.exited 0 }

theorem runScript_config_false (w : World) (args : List String)
    (hc : w.configOk = false) :
    runScript w args
      = { events := [], exc := some PyExc.configError, exitCode := 1 } := by
  simp [runScript, hc]

theorem runScript_notFound (w : World) (args : List String)
    (hc : w.configOk = true) (hs : w.spawn (buildCmd args) = SpawnResult.notFound) :
    runScript w args
      = { events := [Event.configCall audioBackend],
          exc := some PyExc.fileNotFoundError, exitCode := 1 } := by
  simp [runScript, hc, hs]

theorem runScript_exited_zero (w : World) (args : List String)
    (hc : w.configOk = true) (hs : w.spawn (buildCmd args) = SpawnResult.exited 0) :
    runScript w args
      = { events := [Event.configCall audioBackend, Event.spawn (buildCmd args)],
          exc := none, exitCode := 0 } := by
  simp [runScript, hc, hs]

theorem runScript_exited_nonzero (w : World) (args : List String) (n : Nat)
    (hc : w.configOk = true) (hs : w.spawn (buildCmd args) = SpawnResult.exited n)
    (hn : n ≠ 0) :
    runScript w args
      = { events := [Event.configCall audioBackend, Event.spawn (buildCmd args)],
          exc := some (PyExc.calledProcessError n (buildCmd args)), exitCode := 1 } := by
  simp [runScript, hc, hs, hn]

/-- Claim C1: every child process created by a run is created with
argument vector exactly `"demucs"` followed by the caller's arguments in
order; in particular the two concrete scenarios of the spec hold. -/
theorem claim_C1 (w : World) (args : List String) :
    (∀ c, Event.spawn c ∈ (runScript w args).events → c = "demucs" :: args)
    ∧ buildCmd ["--two-stems=vocals", "song.mp3"]
        = ["demucs", "--two-stems=vocals", "song.mp3"]
    ∧ buildCmd [] = ["demucs"] := by
  refine ⟨?_, rfl, rfl⟩
  intro c hc
  rcases hcfg : w.configOk with _ | _
  · rw [runScript_config_false w args hcfg] at hc
    simp at hc
  · rcases hs : w.spawn (buildCmd args) with _ | n
    · rw [runScript_notFound w args hcfg hs] at hc
      simp at hc
    · by_cases hn : n = 0
      · subst hn
        rw [runScript_exited_zero w args hcfg hs] at hc
        simp [buildCmd] at hc
        exact hc
      · rw [runScript_exited_nonzero w args n hcfg hs hn] at hc
        simp [buildCmd] at hc
        exact hc

theorem claim_C1_witness :
    ("demucs" :: ["song.mp3"] : List String) = "demucs" :: ["song.mp3"] :=
  (claim_C1 (wOk (SpawnResult.exited 0)) ["song.mp3"]).1
    ("demucs" :: ["song.mp3"]) (by decide)

/-- Claim C2 counterexample: in a world where the child exits with status
2, the forwarder exits with status 1 (the uncaught `CalledProcessError`
makes the interpreter exit 1), not with the child's status 2. -/
theorem claim_C2_counterexample :
    (wOk (SpawnResult.exited 2)).spawn (buildCmd []) = SpawnResult.exited 2
    ∧ (runScript (wOk (SpawnResult.exited 2)) []).exitCode = 1
    ∧ (runScript (wOk (SpawnResult.exited 2)) []).exitCode ≠ 2 := by
  decide

/-- Claim C2 (amended): when the child exits with status `n`, the forwarder
exits 0 if `n = 0` and exits 1 otherwise — a fixed failure code, not `n`. -/
theorem claim_C2_amended (w : World) (args : List String) (n : Nat)
    (hc : w.configOk = true) (hs : w.spawn (buildCmd args) = SpawnResult.exited n) :
    (runScript w args).exitCode = if n = 0 then 0 else 1 := by
  by_cases hn : n = 0
  · subst hn
    rw [runScript_exited_zero w args hc hs]
    simp
  · rw [runScript_exited_nonzero w args n hc hs hn]
    simp [hn]

theorem claim_C2_witness :
    (runScript (wOk (SpawnResult.exited 5)) []).exitCode = if 5 = 0 then 0 else 1 :=
  claim_C2_amended (wOk (SpawnResult.exited 5)) [] 5 rfl rfl

/-- Claim C3: when the child exits with a non-zero status, the forwarder's
exit status is non-zero. -/
theorem claim_C3 (w : World) (args : List String) (n : Nat)
    (hc : w.configOk = true) (hs : w.spawn (buildCmd args) = SpawnResult.exited n)
    (hn : n ≠ 0) :
    (runScript w args).exitCode ≠ 0 := by
  rw [runScript_exited_nonzero w args n hc hs hn]
  simp

theorem claim_C3_witness :
    (runScript (wOk (SpawnResult.exited 2)) ["song.mp3"]).exitCode ≠ 0 :=
  claim_C3 (wOk (SpawnResult.exited 2)) ["song.mp3"] 2 rfl rfl (by decide)

/-- Claim C4: when the executable cannot be located or started, the
forwarder exits non-zero, and the escaping exception is the spawn failure
itself, which the spec's taxonomy classifies as ProcessFailure. -/
theorem claim_C4 (w : World) (args : List String)
    (hc : w.configOk = true) (hs : w.spawn (buildCmd args) = SpawnResult.notFound) :
    (runScript w args).exitCode ≠ 0
    ∧ (runScript w args).exc = some PyExc.fileNotFoundError
    ∧ (∀ e, (runScript w args).exc = some e →
        specErrorKind e = SpecErrorKind.processFailure) := by
  rw [runScript_notFound w args hc hs]
  refine ⟨by decide, rfl, ?_⟩
  intro e he
  simp at he
  subst he
  rfl

theorem claim_C4_witness :
    specErrorKind PyExc.fileNotFoundError = SpecErrorKind.processFailure :=
  (claim_C4 (wOk SpawnResult.notFound) ["song.mp3"] rfl rfl).2.2
    PyExc.fileNotFoundError rfl

/-- Claim C5 counterexample: a run in which the configuration call fails
surfaces an error kind that is not ProcessFailure, so ProcessFailure is
not the only error kind at the forwarder's interface. -/
theorem claim_C5_counterexample :
    (runScript wBadConfig ["song.mp3"]).exc = some PyExc.configError
    ∧ specErrorKind PyExc.configError ≠ SpecErrorKind.processFailure := by
  decide

/-- Claim C5 (amended): whenever the configuration call succeeds, any
error the forwarder surfaces — a spawn failure or a non-zero child exit —
is of the single ProcessFailure kind; a failing configuration call
surfaces a distinct error kind, before any spawn. -/
theorem claim_C5_amended (w : World) (args : List String) (e : PyExc)
    (hc : w.configOk = true) (he : (runScript w args).exc = some e) :
    specErrorKind e = SpecErrorKind.processFailure := by
  rcases hs : w.spawn (buildCmd args) with _ | n
  · rw [runScript_notFound w args hc hs] at he
    simp at he
    subst he
    rfl
  · by_cases hn : n = 0
    · subst hn
      rw [runScript_exited_zero w args hc hs] at he
      simp at he
    · rw [runScript_exited_nonzero w args n hc hs hn] at he
      simp at he
      subst he
      rfl

theorem claim_C5_witness :
    specErrorKind (PyExc.calledProcessError 7 (buildCmd [])) = SpecErrorKind.processFailure :=
  claim_C5_amended (wOk (SpawnResult.exited 7)) [] (PyExc.calledProcessError 7 (buildCmd []))
    rfl (by decide)

/-- Claim C6: when the child exits with status 0, the forwarder raises no
error and exits with status 0. -/
theorem claim_C6 (w : World) (args : List String)
    (hc : w.configOk = true) (hs : w.spawn (buildCmd args) = SpawnResult.exited 0) :
    (runScript w args).exitCode = 0 ∧ (runScript w args).exc = none := by
  rw [runScript_exited_zero w args hc hs]
  exact ⟨rfl, rfl⟩

theorem claim_C6_witness :
    (runScript (wOk (SpawnResult.exited 0)) ["--two-stems=vocals", "song.mp3"]).exitCode = 0
    ∧ (runScript (wOk (SpawnResult.exited 0)) ["--two-stems=vocals", "song.mp3"]).exc = none :=
  claim_C6 (wOk (SpawnResult.exited 0)) ["--two-stems=vocals", "song.mp3"] rfl rfl

/-- Claim C7: the observable trace of every run is one of: nothing (the
configuration call failed), the configuration call alone, or the
configuration call followed by the spawn of the constructed argument
vector — so the configuration call always precedes the spawn and never
follows it. -/
theorem claim_C7 (w : World) (args : List String) :
    (runScript w args).events = []
    ∨ (runScript w args).events = [Event.configCall audioBackend]
    ∨ (runScript w args).events
        = [Event.configCall audioBackend, Event.spawn (buildCmd args)] := by
  rcases hcfg : w.configOk with _ | _
  · left
    rw [runScript_config_false w args hcfg]
  · rcases hs : w.spawn (buildCmd args) with _ | n
    · right; left
      rw [runScript_notFound w args hcfg hs]
    · right; right
      by_cases hn : n = 0
      · subst hn
        rw [runScript_exited_zero w args hcfg hs]
      · rw [runScript_exited_nonzero w args n hcfg hs hn]

/-- Claim C8 counterexample: a run in which the executable cannot be
started creates no child process at all, so not every run spawns exactly
one child process. -/
theorem claim_C8_counterexample :
    spawnCount (runScript (wOk SpawnResult.notFound) ["song.mp3"]).events = 0
    ∧ spawnCount (runScript (wOk SpawnResult.notFound) ["song.mp3"]).events ≠ 1 := by
  decide

/-- Claim C8 (amended): every run spawns at most one child process —
exactly one whenever the configuration call succeeds and the executable
starts — and the only observable effects are the single configuration
call and that spawn. -/
theorem claim_C8_amended (w : World) (args : List String) :
    spawnCount (runScript w args).events ≤ 1
    ∧ (∀ n, w.configOk = true → w.spawn (buildCmd args) = SpawnResult.exited n →
        spawnCount (runScript w args).events = 1)
    ∧ (∀ e, e ∈ (runScript w args).events →
        e = Event.configCall audioBackend ∨ e = Event.spawn (buildCmd args)) := by
  rcases hcfg : w.configOk with _ | _
  · rw [runScript_config_false w args hcfg]
    refine ⟨by decide, ?_, ?_⟩
    · intro n hc _
      simp at hc
    · intro e he
      simp at he
  · rcases hs : w.spawn (buildCmd args) with _ | n
    · rw [runScript_notFound w args hcfg hs]
      refine ⟨by decide, ?_, ?_⟩
      · intro m _ hsp
        simp at hsp
      · intro e he
        simp at he
        subst he
        exact Or.inl rfl
    · have htr : (runScript w args).events
          = [Event.configCall audioBackend, Event.spawn (buildCmd args)] := by
        by_cases hn : n = 0
        · subst hn
          rw [runScript_exited_zero w args hcfg hs]
        · rw [runScript_exited_nonzero w args n hcfg hs hn]
      rw [htr]
      refine ⟨?_, ?_, ?_⟩
      · simp [spawnCount, isSpawnEvent]
      · intro m _ _
        simp [spawnCount, isSpawnEvent]
      · intro e he
        simp at he
        rcases he with he | he
        · exact Or.inl he
        · exact Or.inr he

theorem claim_C8_witness :
    spawnCount (runScript (wOk (SpawnResult.exited 3)) ["x"]).events = 1 :=
  (claim_C8_amended (wOk (SpawnResult.exited 3)) ["x"]).2.1 3 rfl rfl

/-- Claim C9: the argument vector reaches the spawn as a list, each
caller-supplied argument one element, unchanged and at its original
position after the program name; a concrete vector full of shell
metacharacters passes through verbatim as single list elements. -/
theorem claim_C9 (w : World) (args : List String) :
    (∀ c, Event.spawn c ∈ (runScript w args).events →
        c.length = args.length + 1 ∧ ∀ i, c.get? (i + 1) = args.get? i)
    ∧ buildCmd ["a b", "\"quoted\"", "$(echo hi)", "; ls | cat & echo *"]
        = ["demucs", "a b", "\"quoted\"", "$(echo hi)", "; ls | cat & echo *"] := by
  refine ⟨?_, rfl⟩
  intro c hc
  have h1 : c = "demucs" :: args := by
    rcases hcfg : w.configOk with _ | _
    · rw [runScript_config_false w args hcfg] at hc
      simp at hc
    · rcases hs : w.spawn (buildCmd args) with _ | n
      · rw [runScript_notFound w args hcfg hs] at hc
        simp at hc
      · by_cases hn : n = 0
        · subst hn
          rw [runScript_exited_zero w args hcfg hs] at hc
          simp [buildCmd] at hc
          exact hc
        · rw [runScript_exited_nonzero w args n hcfg hs hn] at hc
          simp [buildCmd] at hc
          exact hc
  subst h1
  exact ⟨rfl, fun i => rfl⟩

theorem claim_C9_witness :
    ("demucs" :: ["a b"] : List String).length = ["a b"].length + 1
    ∧ ∀ i, ("demucs" :: ["a b"] : List String).get? (i + 1) = ["a b"].get? i :=
  (claim_C9 (wOk (SpawnResult.exited 0)) ["a b"]).1
    ("demucs" :: ["a b"]) (by decide)

/-- Claim C10: if the backend-configuration call fails, the run produces
no observable event — in particular no child process is ever spawned —
and the forwarder terminates with a non-zero status carrying the
configuration error. -/
theorem claim_C10 (w : World) (args : List String)
    (hc : w.configOk = false) :
    (runScript w args).events = []
    ∧ spawnCount (runScript w args).events = 0
    ∧ (runScript w args).exc = some PyExc.configError
    ∧ (runScript w args).exitCode ≠ 0 := by
  rw [runScript_config_false w args hc]
  exact ⟨rfl, rfl, rfl, by decide⟩

theorem claim_C10_witness :
    (runScript wBadConfig ["song.mp3"]).events = []
    ∧ spawnCount (runScript wBadConfig ["song.mp3"]).events = 0
    ∧ (runScript wBadConfig ["song.mp3"]).exc = some PyExc.configError
    ∧ (runScript wBadConfig ["song.mp3"]).exitCode ≠ 0 :=
  claim_C10 wBadConfig ["song.mp3"] rfl

end DemucsWrapper
